import Mathlib

/-!
Verification development for the `lws` server bootstrap module
(`src/index.js`). The definitions below are a shallow embedding of the
`Lws` class: factory selection (`createServer`), the orchestration in
`listen`, the socket/server event stream (`createServerEventStream`) and
the `propagate` combinator. JavaScript truthiness of optional string
options is made explicit via `truthy`; fallible code returns `Except`.
-/

namespace Lws

/-- JavaScript truthiness of an optional string option: `undefined`
and the empty string are falsy, every other string is truthy. -/
def truthy : Option String → Bool
  | none => false
  | some s => !s.isEmpty

/-- Modelled from the spec: the human-readable byte rendering performed by
the external `byte-size` package (`byteSize(n).toString()`), which is not
part of this repository. Metric units, one decimal place. Only the facts
that the result is a string and which number it was derived from matter
to the claims. -/
def byteSize (n : Nat) : String :=
  if n < 1000 then toString n ++ " B"
  else if n < 1000000 then
    toString (n / 1000) ++ "." ++ toString (n % 1000 / 100) ++ " kB"
  else if n < 1000000000 then
    toString (n / 1000000) ++ "." ++ toString (n % 1000000 / 100000) ++ " MB"
  else
    toString (n / 1000000000) ++ "." ++ toString (n % 1000000000 / 100000000) ++ " GB"

/-- A middleware specification from `options.stack`: an inline class, or a
module-name / path string to be resolved. -/
inductive MiddlewareSpec
  | inline (name : String)
  | moduleName (name : String)
deriving DecidableEq

/-- Modelled from the spec: `lib/middleware-stack` is not under `src/`.
A validated middleware stack: the ordered, already-resolved middleware
instances (identified by name). -/
structure MiddlewareStack where
  items : List String
deriving DecidableEq

/-- The `stack` option as `listen` receives it: either raw specifications
or an already validated `MiddlewareStack` instance. -/
inductive StackOption
  | specs (l : List MiddlewareSpec)
  | stack (s : MiddlewareStack)
deriving DecidableEq

/-- The result of resolving a module name via the external `load-module`
package: a function usable as a server-factory decorator, or some other
export. -/
inductive LoadedModule
  | factoryFn
  | notAFunction
deriving DecidableEq

/-- The module-resolution environment: which names `load-module` can load
(the name / plugin-name / search-path convention is folded into the map),
and the platform's built-in module names (`util.builtinModules`). -/
structure Env where
  resolve : String → Option LoadedModule
  builtinModules : List String

/-- The relevant subset of `ServerOptions` after config-file merging, with
the merge defaults (`port` 8000). TLS material and the custom `server`
option are optional strings, used truthily as in the JavaScript. -/
structure ServerOptions where
  port : Nat := 8000
  hostname : Option String := none
  maxConnections : Option Nat := none
  keepAliveTimeout : Option Nat := none
  https : Bool := false
  http2 : Bool := false
  key : Option String := none
  cert : Option String := none
  pfx : Option String := none
  server : Option String := none
  stack : StackOption := .specs []
  moduleDir : List String := []

/-- The errors raised synchronously during startup. The first two are the
`ConfigConflict` conditions of `createServer` (src/index.js lines 109-113);
the others arise from the custom `server` option and from middleware
resolution. -/
inductive LwsError
  | configConflictKeyCert
  | configConflictHttpsPfx
  | invalidServerBuiltin
  | invalidServerNotFunction
  | moduleNotFound (name : String)
  | middlewareResolutionError (spec : String)
deriving DecidableEq

/-- Whether an error is one of the two `ConfigConflict` conditions. -/
def LwsError.isConfigConflict : LwsError → Bool
  | .configConflictKeyCert => true
  | .configConflictHttpsPfx => true
  | _ => false

/-- Which decorator the factory chain selected. -/
inductive FactoryKind
  | base
  | https
  | http2
  | userSupplied
deriving DecidableEq

/-- The guard of src/index.js line 119:
`options.https || (!options.http2 && ((options.key && options.cert) || options.pfx))`. -/
def httpsCond (o : ServerOptions) : Bool :=
  o.https || (!o.http2 && ((truthy o.key && truthy o.cert) || truthy o.pfx))

/-- The guard of src/index.js line 109: `key` truthy xor `cert` truthy. -/
def keyCertMismatch (o : ServerOptions) : Bool :=
  (truthy o.key && !truthy o.cert) || (!truthy o.key && truthy o.cert)

/-- The guard of src/index.js line 111: `options.https && options.pfx`. -/
def httpsPfxConflict (o : ServerOptions) : Bool :=
  o.https && truthy o.pfx

/-- The validation and decorator-selection logic of `createServer`
(src/index.js lines 107-137): validate the TLS options, then pick the
HTTPS, HTTP2, user-supplied or base factory in the source's order. -/
def selectFactory (env : Env) (o : ServerOptions) : Except LwsError FactoryKind :=
  if keyCertMismatch o then
    .error .configConflictKeyCert
  else if httpsPfxConflict o then
    .error .configConflictHttpsPfx
  else if httpsCond o then
    .ok .https
  else if o.http2 then
    .ok .http2
  else if truthy o.server then
    match o.server with
    | none => .ok .base
    | some name =>
      if env.builtinModules.contains name then
        .error .invalidServerBuiltin
      else
        match env.resolve name with
        | none => .error (.moduleNotFound name)
        | some .factoryFn => .ok .userSupplied
        | some .notAFunction => .error .invalidServerNotFunction
  else
    .ok .base

/-- The live listening object returned by the selected factory's
`create(options)`. -/
structure ServerHandle where
  kind : FactoryKind
  maxConnections : Option Nat := none
  keepAliveTimeout : Option Nat := none
deriving DecidableEq

/-- `createServer` (src/index.js lines 107-141): validation and selection,
then instantiation of the selected factory; an error is raised before any
server object exists, so the error branch carries no handle. -/
def createServer (env : Env) (o : ServerOptions) : Except LwsError ServerHandle :=
  (selectFactory env o).map fun k => { kind := k }

/-- Modelled from the spec: the external `array-back` `arrayify` call of
src/index.js line 62. An array input is returned unchanged; a validated
`MiddlewareStack` extends Array and therefore also passes through
unchanged, and a list of specs is already an array. -/
def arrayifyStack : StackOption → StackOption
  | .specs l => .specs l
  | .stack s => .stack s

/-- Modelled from the spec: `MiddlewareStack.from` of
`lib/middleware-stack` (not under `src/`). Each spec in order: an inline
class is instantiated directly; a string is resolved via the module
resolver and a resolution failure aborts the whole assembly with
`MiddlewareResolutionError` naming the offending spec (fail-fast, no
partial stack). -/
def resolveSpecs (env : Env) : List MiddlewareSpec → Except LwsError (List String)
  | [] => .ok []
  | .inline n :: rest => (resolveSpecs env rest).map fun l => n :: l
  | .moduleName n :: rest =>
    match env.resolve n with
    | none => .error (.middlewareResolutionError n)
    | some _ => (resolveSpecs env rest).map fun l => n :: l

/-- The stack-assembly step of `listen` (src/index.js lines 61-68):
arrayify the option, then build a `MiddlewareStack` from it unless it
already is one, in which case it passes through unchanged. -/
def assembleStack (env : Env) (o : ServerOptions) : Except LwsError MiddlewareStack :=
  match arrayifyStack o.stack with
  | .stack s => .ok s
  | .specs l => (resolveSpecs env l).map fun items => { items := items }

/-- The recurring memory-stats timer started at the end of `listen`
(src/index.js lines 88-97): `setInterval(..., 60000)` followed by
`interval.unref()`. -/
structure IntervalTimer where
  periodMs : Nat
  unrefd : Bool
deriving DecidableEq

/-- What a successful `listen` call yields: the live handle, the
validated stack, and the running memory-stats timer. -/
structure ListenResult where
  handle : ServerHandle
  stack : MiddlewareStack
  timer : IntervalTimer
deriving DecidableEq

/-- The startup pipeline of `listen` (src/index.js lines 37-100), paired
with the keys of the verbose events its wiring emits during startup:
create the server (may fail), apply the `maxConnections` /
`keepAliveTimeout` overrides, assemble the middleware stack (may fail),
and only then call `server.listen`, whose `listening` notification
produces the `server.listening` verbose event; finally start the
unref'd 60000 ms memory timer. Errors propagate synchronously to the
caller, before `server.listen` is ever reached. -/
def listen (env : Env) (o : ServerOptions) :
    List String × Except LwsError ListenResult :=
  match createServer env o with
  | .error e => ([], .error e)
  | .ok h =>
    let h := { h with maxConnections := o.maxConnections,
                      keepAliveTimeout := o.keepAliveTimeout }
    match assembleStack env o with
    | .error e => ([], .error e)
    | .ok st =>
      (["server.listening"],
       .ok { handle := h, stack := st,
             timer := { periodMs := 60000, unrefd := true } })

/-! ### The verbose event stream (`createServerEventStream`, `propagate`) -/

/-- The per-socket display attributes (src/index.js lines 151-158):
the socket's id and its byte counters rendered through `byteSize`. -/
structure SocketPayload where
  socketId : Nat
  bytesRead : String
  bytesWritten : String
deriving DecidableEq

/-- The memory-usage payload after the four `byteSize` conversions
(src/index.js lines 90-94). -/
structure MemUsagePayload where
  rss : String
  heapTotal : String
  heapUsed : String
  external : String
deriving DecidableEq

/-- The payload of a verbose event. -/
inductive VerbosePayload
  | socket (p : SocketPayload)
  | err (message : String)
  | urls (l : List String)
  | mem (p : MemUsagePayload)
  | empty
deriving DecidableEq

/-- `socketProperties(socket)` (src/index.js lines 151-158). -/
def socketProperties (socketId : Nat) (bytesRead bytesWritten : Nat) : SocketPayload :=
  { socketId := socketId
    bytesRead := byteSize bytesRead
    bytesWritten := byteSize bytesWritten }

/-- `write(name, value)` (src/index.js lines 145-149): captures `name`
and `value` and emits them later, when the returned thunk runs. -/
def write (name : String) (value : VerbosePayload) : Unit → String × VerbosePayload :=
  fun _ => (name, value)

/-- A socket's byte counters at one instant. -/
structure SocketCounters where
  bytesRead : Nat
  bytesWritten : Nat
deriving DecidableEq

/-- The low-level socket notifications monitored by the `connection`
handler (src/index.js lines 163-184). -/
inductive SocketEvent
  | connect
  | data
  | drain
  | timeout
  | close
  | error (message : String)
  | socketEnd
  | lookup
deriving DecidableEq

/-- The `connection` handler of `createServerEventStream` (src/index.js
lines 163-184), applied to one socket: `id` is the id the counter
assigned, `init` the socket's counters when the handler ran, and `tr`
the socket's subsequent notifications with the counters at each firing.
`server.socket.new` is emitted immediately. The `data`/`drain`/
`timeout`/`close` listeners recompute `socketProperties(this)` when they
fire; the `connect`, `end` and `lookup` listeners were registered as
`write(key, socketProperties(socket, cId))`, so their payload was
computed once, at registration time, and the `lookup` listener emits
under the key `server.socket.connect`. -/
def onConnection (id : Nat) (init : SocketCounters)
    (tr : List (SocketEvent × SocketCounters)) : List (String × VerbosePayload) :=
  write "server.socket.new" (.socket (socketProperties id init.bytesRead init.bytesWritten)) () ::
  tr.map fun ec =>
    match ec.1 with
    | .connect =>
      write "server.socket.connect" (.socket (socketProperties id init.bytesRead init.bytesWritten)) ()
    | .data =>
      write "server.socket.data" (.socket (socketProperties id ec.2.bytesRead ec.2.bytesWritten)) ()
    | .drain =>
      write "server.socket.drain" (.socket (socketProperties id ec.2.bytesRead ec.2.bytesWritten)) ()
    | .timeout =>
      write "server.socket.timeout" (.socket (socketProperties id ec.2.bytesRead ec.2.bytesWritten)) ()
    | .close =>
      write "server.socket.close" (.socket (socketProperties id ec.2.bytesRead ec.2.bytesWritten)) ()
    | .error m => write "server.socket.error" (.err m) ()
    | .socketEnd =>
      write "server.socket.end" (.socket (socketProperties id init.bytesRead init.bytesWritten)) ()
    | .lookup =>
      write "server.socket.connect" (.socket (socketProperties id init.bytesRead init.bytesWritten)) ()

/-- The `listening` handler (src/index.js lines 195-205): `isSecure` is
`t.isDefined(server.addContext)`; a truthy `hostname` yields a single
URL, otherwise one URL per interface address from `util.getIPList()`
(here a parameter, the OS interface list being external). -/
def onListening (isSecure : Bool) (hostname : Option String) (port : Nat)
    (ifaces : List String) : String × VerbosePayload :=
  let scheme := if isSecure then "https" else "http"
  let ipList :=
    if truthy hostname then
      [scheme ++ "://" ++ hostname.getD "" ++ ":" ++ toString port]
    else
      ifaces.map fun a => scheme ++ "://" ++ a ++ ":" ++ toString port
  write "server.listening" (.urls ipList) ()

/-- A `process.memoryUsage()` sample (numeric, in bytes). -/
structure MemUsage where
  rss : Nat
  heapTotal : Nat
  heapUsed : Nat
  external : Nat
deriving DecidableEq

/-- One firing of the memory-stats interval (src/index.js lines 88-96):
each field converted through `byteSize` and emitted as
`process.memoryUsage`. -/
def memoryUsageTick (m : MemUsage) : String × VerbosePayload :=
  ("process.memoryUsage",
   .mem { rss := byteSize m.rss
          heapTotal := byteSize m.heapTotal
          heapUsed := byteSize m.heapUsed
          external := byteSize m.external })

/-- The forwarding listener installed by `propagate(from)` (src/index.js
lines 14-16): `(key, value) => this.emit('verbose', key, value)`. -/
def propagateListener (kv : String × VerbosePayload) : String × VerbosePayload :=
  (kv.1, kv.2)

/-- The effect of `propagate(from)` on a source's emission sequence: every
verbose event of the source is re-emitted on the aggregator's stream by
`propagateListener`, in emission order. -/
def propagate (source : List (String × VerbosePayload)) : List (String × VerbosePayload) :=
  source.map propagateListener

/-- How many events of a stream carry the given key. -/
def countKey (k : String) (l : List (String × VerbosePayload)) : Nat :=
  (l.filter fun e => e.1 == k).length

/-! ### The id counters (`cId`, `requestId`) -/

/-- Server-level activity relevant to the two id counters: a `connection`
notification (a new socket), a socket closing, and a `request`
notification. -/
inductive ServerActivity
  | connectionOpen
  | socketClosed
  | request
deriving DecidableEq

/-- The two counters of `createServerEventStream` (src/index.js lines
160, 189): `socket.id = cId++` on every `connection`, and
`req.requestId = requestId++` on every `request`; nothing else touches
either counter, and closing a socket does not. The result pairs each
activity with the id it was assigned, if any. -/
def assignIds : List ServerActivity → Nat → Nat → List (ServerActivity × Option Nat)
  | [], _, _ => []
  | .connectionOpen :: rest, c, r => (.connectionOpen, some c) :: assignIds rest (c + 1) r
  | .socketClosed :: rest, c, r => (.socketClosed, none) :: assignIds rest c r
  | .request :: rest, c, r => (.request, some r) :: assignIds rest c (r + 1)

/-- Both counters start at 1 (`let cId = 1`, `let requestId = 1`). -/
def streamIds (es : List ServerActivity) : List (ServerActivity × Option Nat) :=
  assignIds es 1 1

/-- Select the id a `connection` notification was assigned. -/
def pickConn : ServerActivity × Option Nat → Option Nat
  | (.connectionOpen, i) => i
  | _ => none

/-- Select the id a `request` notification was assigned. -/
def pickReq : ServerActivity × Option Nat → Option Nat
  | (.request, i) => i
  | _ => none

/-- The connection ids assigned over an activity sequence, in order. -/
def connectionIds (es : List ServerActivity) : List Nat :=
  (streamIds es).filterMap pickConn

/-- The request ids assigned over an activity sequence, in order. -/
def requestIds (es : List ServerActivity) : List Nat :=
  (streamIds es).filterMap pickReq

/-- The number of `connection` notifications in a sequence. -/
def countConn : List ServerActivity → Nat
  | [] => 0
  | .connectionOpen :: rest => countConn rest + 1
  | _ :: rest => countConn rest

/-- The number of `request` notifications in a sequence. -/
def countReq : List ServerActivity → Nat
  | [] => 0
  | .request :: rest => countReq rest + 1
  | _ :: rest => countReq rest

/-- A trivial module-resolution environment in which nothing resolves. -/
def env0 : Env := { resolve := fun _ => none, builtinModules := [] }

/-- Concrete options with both `https` and `pfx` supplied. -/
def oHttpsPfx : ServerOptions := { https := true, pfx := some "cert.pfx" }

/-! ### Helper lemmas -/

/-- `propagate` is the identity on emission sequences. -/
theorem propagate_eq_id (l : List (String × VerbosePayload)) : propagate l = l := by
  induction l with
  | nil => rfl
  | cons kv rest ih => simp [propagate, propagateListener] at ih ⊢; exact ih

/-- The connection ids produced by `assignIds` from any counter values. -/
theorem assignIds_pickConn (es : List ServerActivity) :
    ∀ c r, (assignIds es c r).filterMap pickConn = List.range' c (countConn es) := by
  induction es with
  | nil => intro c r; simp [assignIds, countConn]
  | cons e rest ih =>
    intro c r
    cases e <;>
      simp [assignIds, countConn, pickConn, List.filterMap_cons, List.range'_succ, ih]

/-- The request ids produced by `assignIds` from any counter values. -/
theorem assignIds_pickReq (es : List ServerActivity) :
    ∀ c r, (assignIds es c r).filterMap pickReq = List.range' r (countReq es) := by
  induction es with
  | nil => intro c r; simp [assignIds, countReq]
  | cons e rest ih =>
    intro c r
    cases e <;>
      simp [assignIds, countReq, pickReq, List.filterMap_cons, List.range'_succ, ih]

/-! ### Claims -/

/-- C1, counterexample: with `https` and `pfx` both supplied, the claimed
selection condition holds, yet `createServer` raises `ConfigConflict`
instead of selecting the HTTPS decorator, so the claimed equivalence is
false at this input. -/
theorem selectFactory_https_pfx_counterexample :
    ¬ (selectFactory env0 oHttpsPfx = Except.ok FactoryKind.https ↔
       httpsCond oHttpsPfx = true) := by
  intro h
  have h2 : selectFactory env0 oHttpsPfx = Except.ok FactoryKind.https := h.mpr rfl
  rw [show selectFactory env0 oHttpsPfx = Except.error LwsError.configConflictHttpsPfx from rfl] at h2
  exact Except.noConfusion h2

/-- C1, amended: for every ServerOptions passing the validation of
`createServer` (no key/cert mismatch, not both `https` and `pfx`),
factory selection chooses the HTTPS decorator exactly when `https` is
true, or when `http2` is false and either both `key` and `cert` are
truthy or `pfx` is truthy; in particular such options with `https` true
select the HTTPS decorator regardless of `http2`. -/
theorem selectFactory_https_iff (env : Env) (o : ServerOptions)
    (hv : keyCertMismatch o = false) (hp : httpsPfxConflict o = false) :
    (selectFactory env o = Except.ok FactoryKind.https ↔ httpsCond o = true) ∧
    (o.https = true → selectFactory env o = Except.ok FactoryKind.https) := by
  have hmain : selectFactory env o = Except.ok FactoryKind.https ↔ httpsCond o = true := by
    by_cases hc : httpsCond o
    · simp [selectFactory, hv, hp, hc]
    · simp only [hc, iff_false]
      unfold selectFactory
      simp only [hv, hp, hc, Bool.false_eq_true, if_false]
      by_cases h2 : o.http2
      · simp [h2]
      · simp only [h2, Bool.false_eq_true, if_false]
        by_cases hs : truthy o.server
        · simp only [hs, if_true]
          cases hso : o.server with
          | none => simp
          | some name =>
            by_cases hb : name ∈ env.builtinModules
            · simp [hb]
            · cases hr : env.resolve name with
              | none => simp [hb, hr]
              | some m => cases m <;> simp [hb, hr]
        · simp [hs]
  refine ⟨hmain, fun hh => hmain.mpr ?_⟩
  simp [httpsCond, hh]

/-- C1 witness: options with `https` and `http2` both true pass
validation and select the HTTPS decorator. -/
theorem selectFactory_https_iff_witness :
    selectFactory env0 { https := true, http2 := true } = Except.ok FactoryKind.https :=
  (selectFactory_https_iff env0 { https := true, http2 := true } rfl rfl).2 rfl

/-- C2: whenever exactly one of `key`/`cert` is truthy, or `https` and
`pfx` are both supplied, `createServer` fails with one of the two
`ConfigConflict` errors; the error branch of `createServer` carries no
handle, so no server object is created. -/
theorem createServer_configConflict (env : Env) (o : ServerOptions)
    (h : keyCertMismatch o = true ∨ (o.https = true ∧ truthy o.pfx = true)) :
    ∃ e, createServer env o = Except.error e ∧ e.isConfigConflict = true := by
  by_cases hk : keyCertMismatch o
  · exact ⟨.configConflictKeyCert, by simp [createServer, selectFactory, hk, Except.map], rfl⟩
  · rcases h with h | ⟨h1, h2⟩
    · exact absurd h hk
    · refine ⟨.configConflictHttpsPfx, ?_, rfl⟩
      have hp : httpsPfxConflict o = true := by simp [httpsPfxConflict, h1, h2]
      simp [createServer, selectFactory, hk, hp, Except.map]

/-- C2 witness: `key` without `cert` is a `ConfigConflict`. -/
theorem createServer_configConflict_witness :
    ∃ e, createServer env0 { key := some "k.pem" } = Except.error e ∧
      e.isConfigConflict = true :=
  createServer_configConflict env0 { key := some "k.pem" } (Or.inl rfl)

/-- C4: connection ids and request ids are assigned from two independent
counters starting at 1: over any activity sequence the connection ids
are exactly 1, 2, ..., n in order (n the number of connections) and
likewise for request ids, so ids are strictly increasing and never
reused; in particular opening and closing 3 sockets sequentially and
then opening a 4th assigns the 4th socket id 4. -/
theorem connectionIds_requestIds_monotone :
    (∀ es : List ServerActivity,
      connectionIds es = List.range' 1 (countConn es) ∧
      requestIds es = List.range' 1 (countReq es)) ∧
    connectionIds [.connectionOpen, .socketClosed, .connectionOpen, .socketClosed,
      .connectionOpen, .socketClosed, .connectionOpen] = [1, 2, 3, 4] := by
  refine ⟨fun es => ⟨?_, ?_⟩, ?_⟩
  · exact assignIds_pickConn es 1 1
  · exact assignIds_pickReq es 1 1
  · decide

/-- C5: `propagate` re-emits every event of the source unchanged and in
order on the aggregator's stream, and composes: propagating an
aggregator into a second aggregator delivers each innermost event
exactly once, with key and payload unchanged. -/
theorem propagate_unchanged_composable :
    ∀ l : List (String × VerbosePayload),
      propagate l = l ∧ propagate (propagate l) = l ∧
      ∀ k, countKey k (propagate (propagate l)) = countKey k l := by
  intro l
  have h := propagate_eq_id l
  refine ⟨h, ?_, ?_⟩
  · rw [h, h]
  · intro k; rw [h, h]

/-- C3, counterexample: for a socket observed at connection time with
counters 0/0 whose `end` notification fires after 100 bytes were read,
the emitted `server.socket.end` payload still shows the connection-time
counters, not the counters at the time the event fires. -/
theorem socket_end_payload_stale_counterexample :
    (onConnection 1 ⟨0, 0⟩ [(.socketEnd, ⟨100, 0⟩)])[1]? =
      some ("server.socket.end", .socket (socketProperties 1 0 0)) ∧
    socketProperties 1 0 0 ≠ socketProperties 1 100 0 := by
  constructor
  · rfl
  · decide

/-- C3, amended: every monitored socket event among `new`, `connect`,
`data`, `drain`, `timeout`, `close` and `end` carries a payload
`{socketId, bytesRead, bytesWritten}` whose byte counters are rendered
through `byteSize` as human-readable strings, never as raw numbers; the
counters are read at the time the event fires for `new`, `data`,
`drain`, `timeout` and `close`, while for `connect` and `end` the
payload is the snapshot computed when the connection was first observed
(listener registration time). -/
theorem socket_event_payloads (id : Nat) (init : SocketCounters)
    (tr : List (SocketEvent × SocketCounters)) :
    (onConnection id init tr)[0]? =
      some ("server.socket.new",
        .socket (socketProperties id init.bytesRead init.bytesWritten)) ∧
    (∀ (i : Nat) (k : String) (p : SocketPayload),
      (onConnection id init tr)[i]? = some (k, VerbosePayload.socket p) →
      ∃ b w, p = socketProperties id b w) ∧
    (∀ i e c, tr[i]? = some (e, c) →
      ((e = SocketEvent.data → (onConnection id init tr)[i + 1]? =
          some ("server.socket.data",
            .socket (socketProperties id c.bytesRead c.bytesWritten))) ∧
       (e = SocketEvent.drain → (onConnection id init tr)[i + 1]? =
          some ("server.socket.drain",
            .socket (socketProperties id c.bytesRead c.bytesWritten))) ∧
       (e = SocketEvent.timeout → (onConnection id init tr)[i + 1]? =
          some ("server.socket.timeout",
            .socket (socketProperties id c.bytesRead c.bytesWritten))) ∧
       (e = SocketEvent.close → (onConnection id init tr)[i + 1]? =
          some ("server.socket.close",
            .socket (socketProperties id c.bytesRead c.bytesWritten))) ∧
       (e = SocketEvent.connect → (onConnection id init tr)[i + 1]? =
          some ("server.socket.connect",
            .socket (socketProperties id init.bytesRead init.bytesWritten))) ∧
       (e = SocketEvent.socketEnd → (onConnection id init tr)[i + 1]? =
          some ("server.socket.end",
            .socket (socketProperties id init.bytesRead init.bytesWritten))))) := by
  refine ⟨by simp [onConnection, write], ?_, ?_⟩
  · intro i k p h
    cases i with
    | zero =>
      simp [onConnection, write] at h
      exact ⟨init.bytesRead, init.bytesWritten, h.2.symm⟩
    | succ n =>
      simp only [onConnection, write, List.getElem?_cons_succ, List.getElem?_map] at h
      cases htr : tr[n]? with
      | none => rw [htr] at h; simp at h
      | some ec =>
        rw [htr] at h
        obtain ⟨e, c⟩ := ec
        cases e <;> simp at h <;>
          first
          | exact ⟨init.bytesRead, init.bytesWritten, h.2.symm⟩
          | exact ⟨c.bytesRead, c.bytesWritten, h.2.symm⟩
  · intro i e c h
    refine ⟨?_, ?_, ?_, ?_, ?_, ?_⟩ <;> intro he <;> subst he <;>
      simp [onConnection, write, List.getElem?_cons_succ, List.getElem?_map, h]

/-- C3 witness: a `data` notification firing with counters 5/7 emits the
freshly computed payload. -/
theorem socket_event_payloads_witness :
    (onConnection 1 ⟨0, 0⟩ [(.data, ⟨5, 7⟩)])[0 + 1]? =
      some ("server.socket.data", .socket (socketProperties 1 5 7)) :=
  ((socket_event_payloads 1 ⟨0, 0⟩ [(.data, ⟨5, 7⟩)]).2.2 0 .data ⟨5, 7⟩ rfl).1 rfl

/-- C6: when startup validation fails (in factory selection or in
middleware-stack assembly), `listen` returns the error synchronously to
its caller, no `ListenResult` (and hence no listening server) exists,
and no `server.listening` verbose event is ever emitted. -/
theorem listen_error_no_listening (env : Env) (o : ServerOptions) (e : LwsError)
    (h : (listen env o).2 = Except.error e) :
    (listen env o).1 = [] ∧ "server.listening" ∉ (listen env o).1 := by
  unfold listen at h ⊢
  cases hc : createServer env o with
  | error e2 => simp [hc]
  | ok hd =>
    cases ha : assembleStack env o with
    | error e2 => simp [hc, ha]
    | ok st => rw [hc] at h; simp [ha] at h

/-- C6 witness: supplying `key` without `cert` makes `listen` fail and
emit nothing. -/
theorem listen_error_no_listening_witness :
    (listen env0 { key := some "k.pem" }).1 = [] ∧
    "server.listening" ∉ (listen env0 { key := some "k.pem" }).1 :=
  listen_error_no_listening env0 { key := some "k.pem" }
    LwsError.configConflictKeyCert rfl

/-- C7: the `server.listening` payload is an ordered sequence of URLs
with scheme `https` exactly when the handle exposes `addContext`
(`isSecure`), else `http`: a configured (truthy) hostname yields exactly
that one URL, otherwise one URL per network-interface address, in
order; concretely, hostname `localhost`, port 9000, secure, yields
exactly `["https://localhost:9000"]`. -/
theorem onListening_payload (isSecure : Bool) (hostname : Option String)
    (port : Nat) (ifaces : List String) :
    (∀ hn, hostname = some hn → hn ≠ "" →
      onListening isSecure hostname port ifaces =
        ("server.listening",
         VerbosePayload.urls
           [(if isSecure then "https" else "http") ++ "://" ++ hn ++ ":" ++ toString port])) ∧
    (truthy hostname = false →
      onListening isSecure hostname port ifaces =
        ("server.listening",
         VerbosePayload.urls
           (ifaces.map fun a =>
             (if isSecure then "https" else "http") ++ "://" ++ a ++ ":" ++ toString port))) ∧
    onListening true (some "localhost") 9000 [] =
      ("server.listening", VerbosePayload.urls ["https://localhost:9000"]) := by
  refine ⟨?_, ?_, ?_⟩
  · intro hn hhn hne
    subst hhn
    have hie : hn.isEmpty = false := by
      cases hi : hn.isEmpty
      · rfl
      · exact absurd ((String.isEmpty_iff hn).mp hi) hne
    simp [onListening, write, truthy, hie]
  · intro hf
    simp [onListening, write, hf]
  · rfl

/-- C7 witness: both branches at concrete inputs. -/
theorem onListening_payload_witness :
    onListening false (some "example.org") 8000 [] =
      ("server.listening", VerbosePayload.urls ["http://example.org:8000"]) ∧
    onListening false none 8000 ["10.0.0.1", "192.168.1.1"] =
      ("server.listening",
       VerbosePayload.urls ["http://10.0.0.1:8000", "http://192.168.1.1:8000"]) := by
  constructor
  · have h := (onListening_payload false (some "example.org") 8000 []).1
      "example.org" rfl (by decide)
    simpa using h
  · have h := (onListening_payload false none 8000 ["10.0.0.1", "192.168.1.1"]).2.1 rfl
    simpa using h

/-- C8: if the `stack` option is already a validated `MiddlewareStack`,
assembly passes it through unchanged without re-resolving any
specification, so repeating assembly on an assembled stack is
idempotent. -/
theorem assembleStack_passthrough (env : Env) (o : ServerOptions) :
    (∀ s, o.stack = StackOption.stack s → assembleStack env o = Except.ok s) ∧
    (∀ st, assembleStack env o = Except.ok st →
      assembleStack env { o with stack := StackOption.stack st } = Except.ok st) := by
  constructor
  · intro s hs
    simp [assembleStack, arrayifyStack, hs]
  · intro st _
    simp [assembleStack, arrayifyStack]

/-- C8 witness: a validated stack passes through unchanged, twice. -/
theorem assembleStack_passthrough_witness :
    assembleStack env0 { stack := StackOption.stack ⟨["m"]⟩ } = Except.ok ⟨["m"]⟩ ∧
    assembleStack env0 { stack := StackOption.stack ⟨["m"]⟩ } = Except.ok ⟨["m"]⟩ := by
  have t := assembleStack_passthrough env0 { stack := StackOption.stack ⟨["m"]⟩ }
  exact ⟨t.1 ⟨["m"]⟩ rfl, t.2 ⟨["m"]⟩ (t.1 ⟨["m"]⟩ rfl)⟩

/-- C9: a successful `listen` starts the memory-stats timer with a
60 * 1000 ms period and `unref` applied (so it does not keep the process
alive), and each firing emits `process.memoryUsage` with all four fields
rendered through `byteSize` as human-readable strings. -/
theorem listen_memory_timer :
    (∀ env o r, (listen env o).2 = Except.ok r →
      r.timer.periodMs = 60 * 1000 ∧ r.timer.unrefd = true) ∧
    (∀ m, memoryUsageTick m =
      ("process.memoryUsage",
       VerbosePayload.mem
         { rss := byteSize m.rss, heapTotal := byteSize m.heapTotal,
           heapUsed := byteSize m.heapUsed, external := byteSize m.external })) := by
  constructor
  · intro env o r h
    unfold listen at h
    cases hc : createServer env o with
    | error e2 => rw [hc] at h; simp at h
    | ok hd =>
      cases ha : assembleStack env o with
      | error e2 => rw [hc] at h; simp [ha] at h
      | ok st =>
        rw [hc] at h
        simp [ha] at h
        subst h
        exact ⟨rfl, rfl⟩
  · intro m
    rfl

/-- C9 witness: default options succeed and the conclusion holds there. -/
theorem listen_memory_timer_witness :
    ({ periodMs := 60000, unrefd := true } : IntervalTimer).periodMs = 60 * 1000 ∧
    ({ periodMs := 60000, unrefd := true } : IntervalTimer).unrefd = true :=
  listen_memory_timer.1 env0 {}
    { handle := { kind := .base }, stack := ⟨[]⟩,
      timer := { periodMs := 60000, unrefd := true } } rfl

/-- C10: the aggregator emits the key `server.socket.connect` for the
socket's `lookup` transition as well as for `connect`; no event ever
carries the key `server.socket.lookup`, and a single socket undergoing a
lookup followed by a connect is observed emitting `server.socket.connect`
twice. -/
theorem lookup_emits_connect_key (id : Nat) (init : SocketCounters)
    (tr : List (SocketEvent × SocketCounters)) :
    (∀ ev ∈ onConnection id init tr, ev.1 ≠ "server.socket.lookup") ∧
    (∀ i c, tr[i]? = some (SocketEvent.lookup, c) →
      (onConnection id init tr)[i + 1]? =
        some ("server.socket.connect",
          .socket (socketProperties id init.bytesRead init.bytesWritten))) ∧
    countKey "server.socket.connect"
      (onConnection 1 ⟨0, 0⟩ [(.lookup, ⟨0, 0⟩), (.connect, ⟨0, 0⟩)]) = 2 := by
  refine ⟨?_, ?_, ?_⟩
  · intro ev hev
    rw [onConnection] at hev
    rcases List.mem_cons.mp hev with hh | hm
    · subst hh; simp [write]
    · obtain ⟨⟨e, c⟩, _, rfl⟩ := List.mem_map.mp hm
      cases e <;> simp [write]
  · intro i c h
    simp [onConnection, write, List.getElem?_cons_succ, List.getElem?_map, h]
  · decide

/-- C10 witness: a concrete lookup notification emits under the
`server.socket.connect` key. -/
theorem lookup_emits_connect_key_witness :
    (onConnection 1 ⟨0, 0⟩ [(.lookup, ⟨3, 4⟩)])[0 + 1]? =
      some ("server.socket.connect", .socket (socketProperties 1 0 0)) :=
  (lookup_emits_connect_key 1 ⟨0, 0⟩ [(.lookup, ⟨3, 4⟩)]).2.1 0 ⟨3, 4⟩ rfl

end Lws
